import Mathlib

/-!
Shallow embedding of the polar2grid sources under verification:

* `src/py/polar2grid/polar2grid/viirs2awips.py`
  (`process_data_sets`, `_process_data_sets`, `run_glue`), namespace `viirs2awips`;
* `src/py/polar2grid_drrtv/polar2grid/drrtv/swath.py`
  (`_filename_info`, `_swath_shape`, `_swath_info`, `_swath_from_var`,
  `_write_array_to_fbf`, `_layer_at_pressure`, `_var_manifest`, `swathbuckler`,
  `Frontend.sort_files_by_nav_uid`), namespace `drrtv`.

Machine floats of the Python code are modelled by rationals; every claim settled
here depends only on comparisons and substitutions that are exact in binary64
at the inputs used.  Logging calls are not modelled except where a claim talks
about a warning, in which case the function returns an explicit flag.
-/

/-- Basename of a path, as Python `os.path.split(x)[1]`: the part after the
last slash. -/
def pyBasename (s : String) : String :=
  String.mk ((s.toList.reverse.takeWhile (fun c => c ≠ '/')).reverse)

/-- Strict order on characters by code point. -/
def charLt (a b : Char) : Bool := Nat.blt a.toNat b.toNat

/-- Strict lexicographic order on character lists. -/
def charListLt : List Char → List Char → Bool
  | [], [] => false
  | [], _ :: _ => true
  | _ :: _, [] => false
  | a :: as, b :: bs =>
    if charLt a b then true else if charLt b a then false else charListLt as bs

/-- Python string `<` (lexicographic on code points). -/
def strLt (a b : String) : Bool := charListLt a.toList b.toList

/-- Python `s.startswith(pre)`. -/
def strStarts (s pre : String) : Bool := pre.toList.isPrefixOf s.toList

/-- Insert into an ascending list. -/
def insertSorted (x : String) : List String → List String
  | [] => [x]
  | y :: ys => if strLt y x then y :: insertSorted x ys else x :: y :: ys

/-- Python `sorted` on strings (ascending lexicographic order on code points). -/
def pySort (l : List String) : List String := l.foldr insertSorted []

/-- Deduplication keeping first occurrences (the order is irrelevant, a sort
follows). -/
def pyDedup (seen : List String) : List String → List String
  | [] => []
  | x :: xs => if seen.contains x then pyDedup seen xs else x :: pyDedup (x :: seen) xs

/-- Python `sorted(set(l))`: deduplicate, then sort. -/
def pySortedSet (l : List String) : List String := pySort (pyDedup [] l)

namespace viirs2awips

/-- Modelled from the spec: the OR-combinable `StatusCode` bitmask constants of
`polar2grid.core.constants` (that module is not under `src/`).  The spec gives a
closed enumeration of failure flags -- frontend, grid-determination, remap,
backend, unknown -- combined by bitwise OR, with 0 meaning success; they are
realised here as distinct bits. -/
def STATUS_SUCCESS : Nat := 0

/-- Modelled from the spec: frontend failure flag. -/
def STATUS_FRONTEND_FAIL : Nat := 1

/-- Modelled from the spec: grid-determination failure flag. -/
def STATUS_GDETER_FAIL : Nat := 2

/-- Modelled from the spec: remap failure flag. -/
def STATUS_REMAP_FAIL : Nat := 4

/-- Modelled from the spec: backend failure flag. -/
def STATUS_BACKEND_FAIL : Nat := 8

/-- Modelled from the spec: unknown failure flag. -/
def STATUS_UNKNOWN_FAIL : Nat := 16

/-- Python `a or b` on integers: `a` if `a` is truthy (non-zero), else `b`.
This is the operator `run_glue` uses in `exit_status = exit_status or stat`,
and `process_data_sets` in `return status_to_return or STATUS_UNKNOWN_FAIL`. -/
def pyOrNat (a b : Nat) : Nat := if a ≠ 0 then a else b

/-- Outcome of the stages inside `process_data_sets`.  The frontend, grid
determination, remap and backend collaborators are external to this core
(`polar2grid.viirs`, `grids.grids`, `remap`, `awips` are not under `src/`), so
their success or failure is an input: this record is the injected per-group
failure pattern the claims quantify over. -/
structure PdsInput where
  frontend_fails : Bool
  bands_empty : Bool
  gdeter_fails : Bool
  remap_fails : Bool
  backend_all_fail : Bool
deriving DecidableEq, Repr

/-- `process_data_sets` (viirs2awips.py lines 61-178): runs the stages in fixed
order, ORs the matching failure bit into `status_to_return` at the first stage
that raises and returns; the empty-bands early return uses Python `or`; the
backend section sets `STATUS_BACKEND_FAIL` only when every grid job failed. -/
def process_data_sets (i : PdsInput) : Nat :=
  if i.frontend_fails then STATUS_SUCCESS ||| STATUS_FRONTEND_FAIL
  else if i.bands_empty then pyOrNat STATUS_SUCCESS STATUS_UNKNOWN_FAIL
  else if i.gdeter_fails then STATUS_SUCCESS ||| STATUS_GDETER_FAIL
  else if i.remap_fails then STATUS_SUCCESS ||| STATUS_REMAP_FAIL
  else if i.backend_all_fail then STATUS_SUCCESS ||| STATUS_BACKEND_FAIL
  else STATUS_SUCCESS

/-- Successive values taken by the local `status_to_return` of
`process_data_sets`, starting at `STATUS_SUCCESS` and ending with the value the
function returns (the empty-bands branch returns `status or UNKNOWN` without
assigning it; the returned value is recorded as the last entry). -/
def pdsStatusTrace (i : PdsInput) : List Nat :=
  if i.frontend_fails then [STATUS_SUCCESS, STATUS_SUCCESS ||| STATUS_FRONTEND_FAIL]
  else if i.bands_empty then [STATUS_SUCCESS, pyOrNat STATUS_SUCCESS STATUS_UNKNOWN_FAIL]
  else if i.gdeter_fails then [STATUS_SUCCESS, STATUS_SUCCESS ||| STATUS_GDETER_FAIL]
  else if i.remap_fails then [STATUS_SUCCESS, STATUS_SUCCESS ||| STATUS_REMAP_FAIL]
  else if i.backend_all_fail then [STATUS_SUCCESS, STATUS_SUCCESS ||| STATUS_BACKEND_FAIL]
  else [STATUS_SUCCESS]

/-- Behaviour of one worker: either `process_data_sets` runs to completion on
the group and returns a status, or it raises one of the exception classes
`_process_data_sets` catches at the worker boundary. -/
inductive WorkerBehavior where
  | runs (i : PdsInput)
  | memoryError
  | osError
  | standardError
  | keyboardInterrupt
deriving DecidableEq, Repr

/-- `_process_data_sets` (lines 180-204): calls `sys.exit` with the status from
`process_data_sets`, or with `-1` after catching `MemoryError`, `OSError`,
`StandardError` or `KeyboardInterrupt`.  The value here is the code of the
`SystemExit` the wrapper always raises -- it never returns normally. -/
def _process_data_sets (b : WorkerBehavior) : Int :=
  match b with
  | .runs i => (process_data_sets i : Int)
  | _ => -1

/-- Terminal status the parent reads from a spawned worker process
(`Process.exitcode` after `join`): the `SystemExit` code reduced to the 8-bit
POSIX exit status, so `sys.exit(-1)` is observed as 255. -/
def processExitcode (b : WorkerBehavior) : Nat :=
  ((_process_data_sets b) % 256).toNat

/-- One of the three navigation-group gathers of `run_glue`, e.g.
`sorted(set([x for x in filepaths if os.path.split(x)[1].startswith("SVM")]))`. -/
def groupFiles (pre : String) (filepaths : List String) : List String :=
  pySortedSet (filepaths.filter (fun x => strStarts (pyBasename x) pre))

/-- The three groups `run_glue` builds, in dispatch order M, I, DNB.
`os.path.abspath(os.path.expanduser(x))` is kept as the identity: path
canonicalisation touches the filesystem and no claim depends on it;
the grouping itself only reads basenames. -/
def runGlueGroups (filepaths : List String) : List (List String) :=
  let fps := pySort filepaths
  [groupFiles "SVM" fps, groupFiles "SVI" fps, groupFiles "SVDNB" fps]

/-- Result of calling `run_glue`: either it returns its `exit_status`, or a
`SystemExit` escapes it (the `except StandardError` clauses do not catch
`SystemExit`, which `_process_data_sets` always raises). -/
inductive RunGlueResult where
  | returned (exit_status : Nat)
  | sysExit (code : Int)
deriving DecidableEq, Repr

/-- `run_glue` (lines 206-292).  `behave` is the injected behaviour of
`process_data_sets` on each group's file list.

In `multiprocess` mode each non-empty group spawns a worker (`Process.start`
raises nothing here, so the `except StandardError` arms are dead), then the
parent joins them in order M, I, DNB and folds every exitcode into
`exit_status` with Python `or`.

In sequential mode the first non-empty group calls `_process_data_sets`
in-process; that wrapper always calls `sys.exit`, and the resulting
`SystemExit` is not a `StandardError`, so it escapes `run_glue` before any
later group is looked at.  The code is transcribed with the mode split
hoisted to the top; the `multiprocess` flag is constant throughout one call,
so this preserves the control flow. -/
def run_glue (filepaths : List String) (multiprocess : Bool)
    (behave : List String → WorkerBehavior) : RunGlueResult :=
  match runGlueGroups filepaths with
  | [m_files, i_files, dnb_files] =>
    if multiprocess then
      let pM := if m_files ≠ [] then some (processExitcode (behave m_files)) else none
      let pI := if i_files ≠ [] then some (processExitcode (behave i_files)) else none
      let pDNB := if dnb_files ≠ [] then some (processExitcode (behave dnb_files)) else none
      let e0 : Nat := 0
      let e1 := match pM with | some s => pyOrNat e0 s | none => e0
      let e2 := match pI with | some s => pyOrNat e1 s | none => e1
      let e3 := match pDNB with | some s => pyOrNat e2 s | none => e2
      .returned e3
    else
      if m_files ≠ [] then .sysExit (_process_data_sets (behave m_files))
      else if i_files ≠ [] then .sysExit (_process_data_sets (behave i_files))
      else if dnb_files ≠ [] then .sysExit (_process_data_sets (behave dnb_files))
      else .returned 0
  | _ => .returned 0

/-- Successive values of the local `exit_status` of `run_glue`: `0`, then (in
multiprocess mode) the value after each of the three join steps.  In
sequential mode the variable is still `0` when the `SystemExit` escapes, and
with no non-empty group the function returns `0`. -/
def runGlueStatusHistory (filepaths : List String) (multiprocess : Bool)
    (behave : List String → WorkerBehavior) : List Nat :=
  match runGlueGroups filepaths with
  | [m_files, i_files, dnb_files] =>
    if multiprocess then
      let pM := if m_files ≠ [] then some (processExitcode (behave m_files)) else none
      let pI := if i_files ≠ [] then some (processExitcode (behave i_files)) else none
      let pDNB := if dnb_files ≠ [] then some (processExitcode (behave dnb_files)) else none
      let e0 : Nat := 0
      let e1 := match pM with | some s => pyOrNat e0 s | none => e0
      let e2 := match pI with | some s => pyOrNat e1 s | none => e1
      let e3 := match pDNB with | some s => pyOrNat e2 s | none => e2
      [e0, e1, e2, e3]
    else
      [0]
  | _ => [0]

/-- Bitwise containment: every bit set in `a` is set in `b`. -/
def bitle (a b : Nat) : Prop := a ||| b = b

instance (a b : Nat) : Decidable (bitle a b) := inferInstanceAs (Decidable (a ||| b = b))

theorem bitle_refl (a : Nat) : bitle a a := by unfold bitle; simp

theorem bitle_zero (b : Nat) : bitle 0 b := by unfold bitle; simp

theorem bitle_pyOr (a b : Nat) : bitle a (pyOrNat a b) := by
  unfold pyOrNat
  split
  · exact bitle_refl a
  · next h => simp only [ne_eq, not_not] at h; subst h; exact bitle_zero b

theorem bitle_trans {a b c : Nat} (h1 : bitle a b) (h2 : bitle b c) : bitle a c := by
  unfold bitle at *
  calc a ||| c = a ||| (b ||| c) := by rw [h2]
    _ = (a ||| b) ||| c := (Nat.lor_assoc a b c).symm
    _ = b ||| c := by rw [h1]
    _ = c := h2

theorem bitle_step (a : Nat) (o : Option Nat) :
    bitle a (match o with | some s => pyOrNat a s | none => a) := by
  cases o
  · exact bitle_refl a
  · exact bitle_pyOr a _

theorem bitle_chain_last : ∀ (l : List Nat), List.Chain' bitle l →
    ∀ s ∈ l, bitle s (l.getLast?.getD 0)
  | [], _, s, hs => absurd hs (List.not_mem_nil s)
  | [_], _, s, hs => by
    simp only [List.mem_singleton] at hs
    subst hs
    simpa [List.getLast?] using bitle_refl s
  | a :: b :: t, h, s, hs => by
    rw [List.chain'_cons] at h
    rw [List.getLast?_cons_cons]
    rcases List.mem_cons.1 hs with rfl | hs2
    · exact bitle_trans h.1 (bitle_chain_last (b :: t) h.2 b (List.mem_cons_self b t))
    · exact bitle_chain_last (b :: t) h.2 s hs2

/-- C1 counterexample.  The claim says the final batch status equals the
bitwise OR of all per-group terminal status codes.  Concretely: one M-group
file whose worker ends with grid-determination failure (terminal status 2) and
one I-group file whose worker ends with remap failure (terminal status 4).
The bitwise OR of the terminal statuses is 6, but `run_glue` aggregates with
Python `exit_status = exit_status or stat`, which keeps the first non-zero
value, so it returns 2. -/
theorem run_glue_or_not_bitwise :
    processExitcode (.runs ⟨false, false, true, false, false⟩) = 2 ∧
    processExitcode (.runs ⟨false, false, false, true, false⟩) = 4 ∧
    run_glue ["SVM1.h5", "SVI1.h5"] true
      (fun fs => if fs = ["SVM1.h5"] then .runs ⟨false, false, true, false, false⟩
                 else .runs ⟨false, false, false, true, false⟩) = .returned 2 ∧
    (2 : Nat) ||| 4 = 6 ∧ (2 : Nat) ≠ 6 := by decide

/-- C1 (amended): after dispatching all non-empty groups and waiting on every
spawned worker, the batch status returned by `run_glue` in multiprocess mode
is the fold by Python logical `or` (first non-zero value wins, not bitwise OR)
of the per-group terminal statuses in dispatch order M, I, DNB; empty groups
spawn no worker and contribute nothing, and with no non-empty group the result
is 0.  In sequential mode `run_glue` does not return at all when some group is
non-empty: the `SystemExit` that `_process_data_sets` raises for the first
non-empty group escapes it. -/
theorem run_glue_aggregation_amended :
    ∀ (filepaths : List String) (behave : List String → WorkerBehavior),
    run_glue filepaths true behave =
      .returned ((((runGlueGroups filepaths).filter (fun g => g ≠ [])).map
        (fun g => processExitcode (behave g))).foldl pyOrNat 0) ∧
    run_glue filepaths false behave =
      (match (runGlueGroups filepaths).filter (fun g => g ≠ []) with
       | [] => .returned 0
       | g :: _ => .sysExit (_process_data_sets (behave g))) := by
  intro filepaths behave
  unfold run_glue runGlueGroups
  by_cases hm : groupFiles "SVM" (pySort filepaths) = [] <;>
  by_cases hi : groupFiles "SVI" (pySort filepaths) = [] <;>
  by_cases hd : groupFiles "SVDNB" (pySort filepaths) = [] <;>
    simp [hm, hi, hd]

/-- C2: sequential and parallel orchestration do not yield the same aggregated
status.  Failing input: an M-group file whose worker succeeds (status 0) and an
I-group file whose worker ends with backend failure (status 8).  Parallel mode
processes both groups and returns 8; sequential mode calls
`_process_data_sets`, whose unconditional `sys.exit` raises a `SystemExit`
that `except StandardError` does not catch, so `run_glue` is aborted by the
first (M) group with code 0 and the I group is never processed.  The
sequential arm assigns `stat = _process_data_sets(...)` and then uses `stat`,
although the wrapper never returns -- per its own docstring it exists so that
the subprocess exitcode is the value `process_data_sets` returned -- so the
sequential branch calling the wrapper instead of `process_data_sets` is a slip
in the code and the claim describes the evident intent. -/
theorem run_glue_modes_diverge :
    run_glue ["SVM1.h5", "SVI1.h5"] true
      (fun fs => if fs = ["SVM1.h5"] then .runs ⟨false, false, false, false, false⟩
                 else .runs ⟨false, false, false, false, true⟩) = .returned 8 ∧
    run_glue ["SVM1.h5", "SVI1.h5"] false
      (fun fs => if fs = ["SVM1.h5"] then .runs ⟨false, false, false, false, false⟩
                 else .runs ⟨false, false, false, false, true⟩) = .sysExit 0 := by
  decide

/-- C8: status codes only accumulate.  Every successive value of
`status_to_return` inside `process_data_sets` and of `exit_status` inside
`run_glue` contains all bits of its predecessor, and the final value contains
the bits of every intermediate value, for every input and every injected
failure pattern. -/
theorem status_codes_monotone :
    ∀ (i : PdsInput) (filepaths : List String) (multiprocess : Bool)
      (behave : List String → WorkerBehavior),
    (List.Chain' bitle (pdsStatusTrace i) ∧
      ∀ s ∈ pdsStatusTrace i, bitle s (process_data_sets i)) ∧
    (List.Chain' bitle (runGlueStatusHistory filepaths multiprocess behave) ∧
      ∀ s ∈ runGlueStatusHistory filepaths multiprocess behave,
        bitle s ((runGlueStatusHistory filepaths multiprocess behave).getLast?.getD 0)) := by
  intro i filepaths multiprocess behave
  constructor
  · rcases i with ⟨f, b, g, r, k⟩
    cases f <;> cases b <;> cases g <;> cases r <;> cases k <;>
      refine ⟨?_, ?_⟩ <;>
      simp [pdsStatusTrace, List.chain'_cons, bitle, process_data_sets, pyOrNat,
        STATUS_SUCCESS, STATUS_FRONTEND_FAIL, STATUS_GDETER_FAIL, STATUS_REMAP_FAIL,
        STATUS_BACKEND_FAIL, STATUS_UNKNOWN_FAIL]
  · have hchain : List.Chain' bitle (runGlueStatusHistory filepaths multiprocess behave) := by
      unfold runGlueStatusHistory runGlueGroups
      cases multiprocess
      · simp
      · refine List.Chain'.cons (bitle_step _ _)
          (List.Chain'.cons (bitle_step _ _)
            (List.Chain'.cons (bitle_step _ _) (List.chain'_singleton _)))
    exact ⟨hchain, bitle_chain_last _ hchain⟩

end viirs2awips

namespace drrtv

/-- Python exception classes raised by the code paths modelled here. -/
inductive PyErr where
  | keyError (key : String)
  | typeError
  | valueError
  | indexError
deriving DecidableEq, Repr

/-- Numpy dtypes appearing in this front end (`data.dtype`); 4-byte and 8-byte
floating point suffice for the claims. -/
inductive NpDType where
  | float32
  | float64
deriving DecidableEq, Repr

/-- A numpy array: row-major flat data with a shape, a dtype, and optionally a
mask (`some` models a `numpy.ma.masked_array`, which always `hasattr 'mask'`,
even when nothing is masked; `none` models a plain ndarray).  Values are
rationals; every comparison and substitution the claims depend on is exact in
binary64 at the inputs used. -/
structure NpArr where
  shape : List Nat
  data : List ℚ
  dtype : NpDType
  mask : Option (List Bool)
deriving DecidableEq, Repr

/-- An HDF5 variable: shape, row-major data, dtype, and the optional
`missing_value` attribute (`attrs['missing_value'][0]`). -/
structure H5Var where
  shape : List Nat
  data : List ℚ
  dtype : NpDType
  missing_value : Option ℚ
deriving DecidableEq, Repr

/-- An input file as `swathbuckler` sees it: its pathname, whether
`h5py.is_hdf5` accepts it, and its variables by name. -/
structure H5File where
  filename : String
  is_hdf5 : Bool
  vars : List (String × H5Var)
deriving DecidableEq, Repr

/-- `h5[name]`: raises `KeyError` when the variable is absent. -/
def getVar (h5 : H5File) (name : String) : Except PyErr H5Var :=
  match h5.vars.find? (fun kv => kv.1 = name) with
  | some kv => .ok kv.2
  | none => .error (.keyError name)

/-- `h5_var[:]`: read the whole variable as a plain ndarray. -/
def h5Read (v : H5Var) : NpArr :=
  { shape := v.shape, data := v.data, dtype := v.dtype, mask := none }

/-- Modelled from the spec: satellite identifier constants of
`polar2grid.core.constants` (not under `src/`); only their distinctness
matters. -/
def SAT_NPP : String := "npp"

/-- Modelled from the spec: Metop-A satellite identifier. -/
def SAT_METOPA : String := "metopa"

/-- Modelled from the spec: Metop-B satellite identifier. -/
def SAT_METOPB : String := "metopb"

/-- Modelled from the spec: Aqua satellite identifier. -/
def SAT_AQUA : String := "aqua"

/-- Modelled from the spec: CrIS instrument identifier. -/
def INST_CRIS : String := "cris"

/-- Modelled from the spec: IASI instrument identifier. -/
def INST_IASI : String := "iasi"

/-- Modelled from the spec: AIRS instrument identifier. -/
def INST_AIRS : String := "airs"

/-- Modelled from the spec: CrIS navigation-set identifier. -/
def CRIS_NAV_UID : String := "cris_nav"

/-- Modelled from the spec: IASI navigation-set identifier. -/
def IASI_NAV_UID : String := "iasi_nav"

/-- Modelled from the spec: AIRS navigation-set identifier. -/
def AIRS_NAV_UID : String := "airs_nav"

/-- Modelled from the spec: the allowed-grid set constant `GRIDS_ANY`. -/
def GRIDS_ANY : String := "grids_any"

/-- Modelled from the spec: the fixed default fill value substituted for
masked elements (`polar2grid.core.constants.DEFAULT_FILL_VALUE`, not under
`src/`); the claims depend only on it being one fixed value. -/
def DEFAULT_FILL_VALUE : ℚ := -999

/-- Whether to interpolate data to an exploded swath (swath.py line 99). -/
def DEFAULT_EXPLODE_SAMPLING : Bool := false

/-- Upsampling magnification factor (swath.py line 100). -/
def EXPLODE_FACTOR : Nat := 64

/-- The `(sat, inst) => (p2g_sat, p2g_inst, rows_per_swath, nav_set_uid)`
guidebook `SAT_INST_TABLE` (swath.py lines 107-116), keys in source order. -/
def SAT_INST_TABLE : List ((Option String × String) × (String × String × Nat × String)) :=
  [((none, "CRIS"), (SAT_NPP, INST_CRIS, 3, CRIS_NAV_UID)),
   ((none, "CrIS"), (SAT_NPP, INST_CRIS, 3, CRIS_NAV_UID)),
   ((some "M02", "IASI"), (SAT_METOPA, INST_IASI, 1, IASI_NAV_UID)),
   ((some "M01", "IASI"), (SAT_METOPB, INST_IASI, 1, IASI_NAV_UID)),
   ((none, "AIRS"), (SAT_AQUA, INST_AIRS, 1, AIRS_NAV_UID))]

/-- Python `SAT_INST_TABLE.get(key)`. -/
def tableGet (key : Option String × String) : Option (String × String × Nat × String) :=
  (SAT_INST_TABLE.find? (fun e => e.1 = key)).map (fun e => e.2)

/-- Character class `[A-Za-z0-9]` of `RE_DRRTV`. -/
def isAlnumAscii (c : Char) : Bool := c.isAlpha || c.isDigit

/-- The tail `.*?\.h5` of `RE_DRRTV`: the lazy star matches any characters
except newline, so the pattern succeeds exactly when `.h5` occurs at or after
the current position with no newline before it. -/
def lazyThenH5 : List Char → Bool
  | '.' :: 'h' :: '5' :: _ => true
  | '\n' :: _ => false
  | _ :: rest => lazyThenH5 rest
  | [] => false

/-- `RE_DRRTV.match` (swath.py line 96):
`(?P<inst>[A-Za-z0-9]+)_d(?P<date>\d+)_t(?P<start_time>\d+)(?:_(?P<sat>[A-Za-z0-9]+))?.*?\.h5`
anchored at the start only.  The greedy classes never need backtracking: an
alphanumeric or digit run can only be followed by the literal `_` at its
maximal extent, `.h5` cannot begin inside the optional `_sat` run (its
characters are alphanumeric or `_`, never `.`), so longest-run parsing is
equivalent to the backtracking regex.  Returns `(inst, date, start_time,
sat?)`. -/
def parseDRRTV (basename : String) : Option (String × String × String × Option String) :=
  let cs := basename.toList
  let instSplit := cs.span isAlnumAscii
  match instSplit.1, instSplit.2 with
  | [], _ => none
  | instL, '_' :: 'd' :: r2 =>
    let dateSplit := r2.span Char.isDigit
    match dateSplit.1, dateSplit.2 with
    | [], _ => none
    | dateL, '_' :: 't' :: r4 =>
      let timeSplit := r4.span Char.isDigit
      match timeSplit.1 with
      | [] => none
      | timeL =>
        let satRest : Option String × List Char :=
          match timeSplit.2 with
          | '_' :: r5b =>
            let satSplit := r5b.span isAlnumAscii
            if satSplit.1.isEmpty then (none, timeSplit.2)
            else (some (String.mk satSplit.1), satSplit.2)
          | r5 => (none, r5)
        if lazyThenH5 satRest.2 then
          some (String.mk instL, String.mk dateL, String.mk timeL, satRest.1)
        else none
    | _, _ => none
  | _, _ => none

/-- Filename metadata as `_filename_info` returns it.  The `start_time` field
of the source holds `datetime.strptime('%(date)s %(start_time)s', ...)`;
calendar parsing is irrelevant to every claim, so the two raw digit groups are
kept instead of a decoded datetime. -/
structure FnInfo where
  start_date : String
  start_time : String
  nav_set_uid : String
  sat : String
  instrument : String
  rows_per_scan : Nat
deriving DecidableEq, Repr

/-- `_filename_info` (swath.py lines 160-180).  A basename that fails the
grammar returns `None`; a grammar match looks up `(sat, inst)` with a fallback
to `(None, inst)`, and when both lookups miss, the tuple unpacking
`sat, inst, rps, nav_set_uid = None` raises `TypeError` rather than returning
the `None` no-match result. -/
def _filename_info (pathname : String) : Except PyErr (Option FnInfo) :=
  match parseDRRTV (pyBasename pathname) with
  | none => .ok none
  | some (inst, date, time, sat) =>
    match (tableGet (sat, inst)).orElse (fun _ => tableGet (none, inst)) with
    | none => .error .typeError
    | some (p2g_sat, p2g_inst, rps, nav_set_uid) =>
      .ok (some { start_date := date, start_time := time, nav_set_uid := nav_set_uid,
                  sat := p2g_sat, instrument := p2g_inst, rows_per_scan := rps })

/-- Decimal digits of a natural number, most significant first; `fuel` bounds
the recursion and any `fuel > n` gives the exact digits. -/
def natDigitsAux (fuel n : Nat) : List Char :=
  match fuel with
  | 0 => []
  | fuel + 1 =>
    if n < 10 then [Char.ofNat (48 + n)]
    else natDigitsAux fuel (n / 10) ++ [Char.ofNat (48 + n % 10)]

/-- Decimal rendering of a natural number. -/
def natRepr (n : Nat) : String := String.mk (natDigitsAux (n + 1) n)

/-- Python `int(q)`: truncation toward zero. -/
def pyTrunc (q : ℚ) : Int :=
  if 0 ≤ q.num then (q.num / (q.den : Int)) else -((-q.num) / (q.den : Int))

/-- Python `'%d' % q` on a float: render the truncation. -/
def pyFormatD (q : ℚ) : String :=
  match pyTrunc q with
  | .ofNat n => natRepr n
  | .negSucc n => "-" ++ natRepr (n + 1)

/-- Left-to-right scan keeping the first index of the minimal distance: the
running best `(bestIdx, best)` is replaced only on a strictly smaller
distance, `i` being the index of the head of the remaining list. -/
def argminAux (p best : ℚ) (bestIdx i : Nat) : List ℚ → Nat × ℚ
  | [] => (bestIdx, best)
  | x :: rest =>
    if |x - p| < best then argminAux p |x - p| i (i + 1) rest
    else argminAux p best bestIdx (i + 1) rest

/-- First index of the minimal element of `|plev - p|`, exactly
`np.abs(plev - p).argmin()` (`argmin` returns the first occurrence of the
minimum and raises `ValueError` on an empty array, reported as `none`). -/
def argminAbs (plev : List ℚ) (p : ℚ) : Option Nat :=
  match plev with
  | [] => none
  | x :: rest => some (argminAux p |x - p| 0 1 rest).1

/-- The layer-selection tools built into manifest entries:
`partial(_layer_at_pressure, plev=plev, p=p)`. -/
inductive Tool where
  | layer_at_pressure (plev : List ℚ) (p : ℚ)
deriving DecidableEq, Repr

/-- `_layer_at_pressure` (swath.py lines 316-332): selects the layer index of
minimal absolute distance to `p` and returns `h5v[dex, :]`, the row-major
block of the first axis at that index (the `LOG.debug` with its guarded
`IndexError` is log-only and not modelled). -/
def _layer_at_pressure (plev : List ℚ) (p : ℚ) (h5v : H5Var) : Except PyErr NpArr :=
  match argminAbs plev p with
  | none => .error .valueError
  | some dex =>
    match h5v.shape with
    | [] => .error .indexError
    | l :: rest =>
      if dex < l then
        let block := rest.prod
        .ok { shape := rest, data := (h5v.data.drop (dex * block)).take block,
              dtype := h5v.dtype, mask := none }
      else .error .indexError

/-- Apply a manifest tool to an HDF5 variable. -/
def applyTool (t : Tool) (h5v : H5Var) : Except PyErr NpArr :=
  match t with
  | .layer_at_pressure plev p => _layer_at_pressure plev p h5v

/-- `np.rollaxis(data, 0, 3)` on a `(l, r, c)` array: roll the layer axis to
the back, giving shape `(r, c, l)` with `new[i, j, k] = old[k, i, j]`.
Arrays of other ranks are returned unchanged (the source only applies it
under `len(shape) == 3`). -/
def rollaxisBack (a : NpArr) : NpArr :=
  match a.shape with
  | [l, r, c] =>
    let d := (List.range (r * c * l)).map (fun n =>
      let i := n / (c * l)
      let rem := n % (c * l)
      let j := rem / l
      let k := rem % l
      a.data.getD (k * (r * c) + i * c + j) 0)
    { shape := [r, c, l], data := d, dtype := a.dtype, mask := a.mask }
  | _ => a

/-- `_swath_from_var` (swath.py lines 248-279): read via the tool or whole,
roll a 3-D layer axis to the back, then mask: with a `missing_value`
attribute `mv`, elements with `np.abs(data - mv) < 0.5` are masked and
overwritten by `DEFAULT_FILL_VALUE` before wrapping as a masked array;
without one, the data is wrapped unmasked and a warning is logged (returned
here as the `Bool` flag).  The `LOG.debug` of min and max is log-only and not
modelled. -/
def _swath_from_var (h5_var : H5Var) (tool : Option Tool) :
    Except PyErr (NpArr × Bool) :=
  match (match tool with
         | some t => applyTool t h5_var
         | none => .ok (h5Read h5_var)) with
  | .error e => .error e
  | .ok data0 =>
    let data := if data0.shape.length = 3 then rollaxisBack data0 else data0
    match h5_var.missing_value with
    | some mv =>
      .ok ({ shape := data.shape
             data := data.data.map (fun x => if |x - mv| < 1/2 then DEFAULT_FILL_VALUE else x)
             dtype := data.dtype
             mask := some (data.data.map (fun x => decide (|x - mv| < 1/2))) }, false)
    | none =>
      .ok ({ data with mask := some (List.replicate data.data.length false) }, true)

theorem abs_half_iff (x mv : ℚ) : |x - mv| < 1/2 ↔ (mv - 1/2 < x ∧ x < mv + 1/2) := by
  rw [abs_sub_lt_iff]
  constructor
  · rintro ⟨h1, h2⟩
    constructor <;> linarith
  · rintro ⟨h1, h2⟩
    constructor <;> linarith

/-- C4 (amended): with a declared sentinel `mv`, `_swath_from_var` masks
exactly the elements of the OPEN interval `(mv - 1/2, mv + 1/2)` -- the code
tests `np.abs(data - mv) < 0.5` strictly, so the endpoints `mv - 1/2` and
`mv + 1/2` of the claim's closed interval stay unmasked -- replaces each
masked element by the fixed `DEFAULT_FILL_VALUE`, leaves every other element
unchanged, and keeps the mask; without a sentinel the result is an unmasked
array (an all-false mask) and the warning flag is set. -/
theorem swath_from_var_open_interval :
    ∀ (h5v : H5Var), h5v.shape.length ≠ 3 →
    (∀ mv, h5v.missing_value = some mv →
      _swath_from_var h5v none = .ok
        ({ shape := h5v.shape
           data := h5v.data.map (fun x =>
             if mv - 1/2 < x ∧ x < mv + 1/2 then DEFAULT_FILL_VALUE else x)
           dtype := h5v.dtype
           mask := some (h5v.data.map (fun x => decide (mv - 1/2 < x ∧ x < mv + 1/2))) },
         false)) ∧
    (h5v.missing_value = none →
      _swath_from_var h5v none = .ok
        ({ shape := h5v.shape, data := h5v.data, dtype := h5v.dtype
           mask := some (List.replicate h5v.data.length false) }, true)) := by
  intro h5v h3
  unfold _swath_from_var
  refine ⟨?_, ?_⟩
  · intro mv hmv
    rw [hmv]
    simp only [h5Read, if_neg (by simpa using h3)]
    have hdata : List.map (fun x => if |x - mv| < 1/2 then DEFAULT_FILL_VALUE else x) h5v.data
        = List.map (fun x => if mv - 1/2 < x ∧ x < mv + 1/2 then DEFAULT_FILL_VALUE else x)
            h5v.data :=
      List.map_congr_left (fun x _ => by rw [if_congr (abs_half_iff x mv) rfl rfl])
    have hmask : List.map (fun x => decide (|x - mv| < 1/2)) h5v.data
        = List.map (fun x => decide (mv - 1/2 < x ∧ x < mv + 1/2)) h5v.data :=
      List.map_congr_left (fun x _ => by rw [decide_eq_decide.2 (abs_half_iff x mv)])
    rw [hdata, hmask]
  · intro hmv
    rw [hmv]
    simp only [h5Read, if_neg (by simpa using h3)]


/-- C4 counterexample: `-1999/2 = -999.5` lies in the claim's closed interval
`[-999.5, -998.5]` (first conjunct), yet with sentinel `-999.0` the code
leaves it unmasked and unchanged (mask `false`, value `-999.5`), because
`|(-999.5) - (-999)| = 0.5` is not `< 0.5`; `-4993/5 = -998.6` in the open
interval is masked and replaced by the fill value. -/
theorem swath_boundary_value_not_masked :
    (-999 - (1/2 : ℚ) ≤ -1999/2 ∧ (-1999/2 : ℚ) ≤ -999 + 1/2) ∧
    _swath_from_var ⟨[1, 2], [-1999/2, -4993/5], .float32, some (-999)⟩ none =
      .ok (⟨[1, 2], [-1999/2, -999], .float32, some [false, true]⟩, false) := by
  constructor
  · constructor <;> norm_num
  · unfold _swath_from_var
    norm_num [h5Read, DEFAULT_FILL_VALUE, List.map]
    constructor <;> rw [abs_of_nonneg (by norm_num)] <;> norm_num


/-- C4 witness: sentinel `-999.0` on `[-999.4, 7]` (the first element is
strictly within half a unit, the second far outside), and a variable with no
sentinel. -/
theorem swath_from_var_open_interval_witness :
    _swath_from_var ⟨[1, 2], [-4997/5, 7], .float32, some (-999)⟩ none =
      .ok (⟨[1, 2],
            ([-4997/5, 7] : List ℚ).map (fun x =>
              if -999 - 1/2 < x ∧ x < -999 + 1/2 then DEFAULT_FILL_VALUE else x),
            .float32,
            some (([-4997/5, 7] : List ℚ).map
              (fun x => decide (-999 - 1/2 < x ∧ x < -999 + 1/2)))⟩, false) ∧
    _swath_from_var ⟨[2], [1, 2], .float32, none⟩ none =
      .ok (⟨[2], [1, 2], .float32, some (List.replicate 2 false)⟩, true) :=
  ⟨(swath_from_var_open_interval ⟨[1, 2], [-4997/5, 7], .float32, some (-999)⟩
      (by decide)).1 (-999) rfl,
   (swath_from_var_open_interval ⟨[2], [1, 2], .float32, none⟩ (by decide)).2 rfl⟩

/-- Modelled from the spec: `nptype_to_suffix`, the reverse of
`polar2grid.core.fbf.str_to_dtype` (that module is not under `src/`); the
spec fixes `real4` as the suffix of 4-byte floats, and the source's
`removable_file_patterns` confirm it; 8-byte floats use `real8`. -/
def nptype_to_suffix : NpDType → String
  | .float32 => "real4"
  | .float64 => "real8"

/-- A flat binary file as written by `data.tofile`: the dtype of the bytes,
the dimensions, and the row-major values. -/
structure WrittenFile where
  dtype : NpDType
  rows : Nat
  cols : Nat
  values : List ℚ
deriving DecidableEq, Repr

/-- Fill-value substitution `data[mask] = DEFAULT_FILL_VALUE`. -/
def applyFill (d : List ℚ) (mask : List Bool) : List ℚ :=
  d.zipWith (fun x m => if m then DEFAULT_FILL_VALUE else x) mask

/-- `_write_array_to_fbf` (swath.py lines 289-313): arrays of rank other than
2 are logged and rejected (`none`, no file).  If the array has a mask
attribute, the data is re-read as 4-byte floats and masked elements are
overwritten with `DEFAULT_FILL_VALUE`.  The filename suffix is computed from
the dtype at that point -- before the final `astype(np.float32)` -- and the
file `{name}.{suffix}.{cols}.{rows}` is then written as 4-byte floats in
row-major order with no header.  Returns the filename and the written file.
Value changes from rounding 8-byte to 4-byte floats are not modelled (no
claim depends on them). -/
def _write_array_to_fbf (name : String) (data : NpArr) :
    Option (String × WrittenFile) :=
  if data.shape.length ≠ 2 then none
  else
    let filled : List ℚ × NpDType :=
      match data.mask with
      | some mask => (applyFill data.data mask, NpDType.float32)
      | none => (data.data, data.dtype)
    let rows := data.shape.getD 0 0
    let cols := data.shape.getD 1 0
    let dts := nptype_to_suffix filled.2
    let fn := name ++ "." ++ dts ++ "." ++ natRepr cols ++ "." ++ natRepr rows
    some (fn, { dtype := NpDType.float32, rows := rows, cols := cols, values := filled.1 })

/-- C5 (amended): rank other than 2 produces no file and returns none.  A
rank-2 array that carries a mask, or is already 4-byte float, is written as
4-byte floats row-major with no header under
`{name}.real4.{cols}.{rows}` (fill value substituted at masked positions) and
that filename is returned, its suffix and dimensions describing the written
data.  The written bytes are ALWAYS 4-byte floats (last conjunct), but the
filename suffix is computed before the final coercion, so for an unmasked
array of another dtype the suffix records the input dtype, not the data
actually written. -/
theorem write_array_to_fbf_amended :
    ∀ (name : String) (a : NpArr),
    (a.shape.length ≠ 2 → _write_array_to_fbf name a = none) ∧
    (∀ r c m, a.shape = [r, c] → a.mask = some m →
      _write_array_to_fbf name a = some
        (name ++ "." ++ "real4" ++ "." ++ natRepr c ++ "." ++ natRepr r,
         { dtype := .float32, rows := r, cols := c, values := applyFill a.data m })) ∧
    (∀ r c, a.shape = [r, c] → a.mask = none → a.dtype = .float32 →
      _write_array_to_fbf name a = some
        (name ++ "." ++ "real4" ++ "." ++ natRepr c ++ "." ++ natRepr r,
         { dtype := .float32, rows := r, cols := c, values := a.data })) ∧
    (∀ fn wf, _write_array_to_fbf name a = some (fn, wf) → wf.dtype = .float32) := by
  intro name a
  refine ⟨?_, ?_, ?_, ?_⟩
  · intro h
    unfold _write_array_to_fbf
    rw [if_pos h]
  · intro r c m hsh hm
    unfold _write_array_to_fbf
    rw [hsh, hm]
    simp [nptype_to_suffix]
  · intro r c hsh hm hd
    unfold _write_array_to_fbf
    rw [hsh, hm, hd]
    simp [nptype_to_suffix]
  · intro fn wf h
    unfold _write_array_to_fbf at h
    by_cases hl : a.shape.length ≠ 2
    · rw [if_pos hl] at h
      exact absurd h (by simp)
    · rw [if_neg hl] at h
      cases hm : a.mask <;> rw [hm] at h <;>
        simp only [Option.some.injEq, Prod.mk.injEq] at h <;>
        rw [← h.2]

/-- C5 counterexample: an unmasked 2x2 float64 array is written to a file
named `x.real8.2.2` whose payload is 4-byte floats -- whose suffix would be
`real4` -- so the dtype suffix in the filename does not describe the data
actually written. -/
theorem write_fbf_suffix_mismatch :
    _write_array_to_fbf "x" ⟨[2, 2], [1, 2, 3, 4], .float64, none⟩ =
      some ("x.real8.2.2",
        { dtype := .float32, rows := 2, cols := 2, values := [1, 2, 3, 4] }) ∧
    nptype_to_suffix NpDType.float32 = "real4" := by
  constructor <;> rfl

/-- C5 witness: a masked 60-column, 252-row array named `swath_latitude`
writes `swath_latitude.real4.60.252` (the spec's example), and a rank-3 array
produces no file. -/
theorem write_array_to_fbf_amended_witness :
    _write_array_to_fbf "swath_latitude"
        ⟨[252, 60], List.replicate 15120 0, .float32, some (List.replicate 15120 false)⟩ =
      some ("swath_latitude.real4.60.252",
        { dtype := .float32, rows := 252, cols := 60,
          values := applyFill (List.replicate 15120 0) (List.replicate 15120 false) }) ∧
    _write_array_to_fbf "x" ⟨[2, 2, 2], [0], .float32, none⟩ = none :=
  ⟨((write_array_to_fbf_amended "swath_latitude"
      ⟨[252, 60], List.replicate 15120 0, .float32, some (List.replicate 15120 false)⟩).2.1
      252 60 (List.replicate 15120 false) rfl rfl).trans (by rfl),
   (write_array_to_fbf_amended "x" ⟨[2, 2, 2], [0], .float32, none⟩).1 (by decide)⟩

/-- The `manifest_entry` namedtuple (swath.py line 336). -/
structure manifest_entry where
  h5_var_name : String
  tool : Option Tool
  bkind : String
  dkind : String
  bid : Option String
deriving DecidableEq, Repr

/-- Pressure layers to obtain data from (swath.py line 119). -/
def DEFAULT_LAYER_PRESSURES : List ℚ := [500, 900]

/-- The `h5_var_name => (dkind, bkind, pressure-layers-or-None)` guidebook
`VAR_TABLE` (swath.py lines 122-154), uncommented entries in source order.
The `DKIND_*`/`BKIND_*` constants come from `polar2grid.core.constants`
(not under `src/`) and are modelled from the spec as distinct tags. -/
def VAR_TABLE : List (String × (String × String × Option (List ℚ))) :=
  [("CAPE", ("cape", "cape", none)),
   ("CO2_Amount", ("co2_amount", "co2_amt", none)),
   ("COT", ("optical_thickness", "cot", none)),
   ("CTP", ("pressure", "ctp", none)),
   ("CTT", ("temperature", "ctt", none)),
   ("CldEmis", ("emissivity", "cld_emis", none)),
   ("Cmask", ("category", "cmask", none)),
   ("Dewpnt", ("temperature", "dewpt", some DEFAULT_LAYER_PRESSURES)),
   ("H2OMMR", ("mixing_ratio", "h2o_mmr", some DEFAULT_LAYER_PRESSURES)),
   ("Lifted_Index", ("temperature", "li", none)),
   ("O3VMR", ("mixing_ratio", "o3_vmr", some DEFAULT_LAYER_PRESSURES)),
   ("RelHum", ("percent", "rh", some DEFAULT_LAYER_PRESSURES)),
   ("SurfPres", ("pressure", "srf_p", none)),
   ("TAir", ("temperature", "air_t", some DEFAULT_LAYER_PRESSURES)),
   ("TSurf", ("temperature", "srf_t", none)),
   ("totH2O", ("total_water", "h2o_tot", none)),
   ("totO3", ("total_ozone", "o3_tot", none))]

/-- Python truthiness of the `ps` slot: `None` and the empty tuple are falsy. -/
def pyTruthy : Option (List ℚ) → Bool
  | none => false
  | some l => !l.isEmpty

/-- Entries one `VAR_TABLE` item `(h5_var_name, (dk, bk, ps))` contributes to
the manifest: one entry `'%s_%dmb' % (h5_var_name, p)` with a layer tool and
bid `'lvl%d' % int(p)` per pressure when `ps` is truthy, else one passthrough
entry named by the plain variable. -/
def varEntries (plev : List ℚ) (kv : String × (String × String × Option (List ℚ))) :
    List (String × manifest_entry) :=
  if pyTruthy kv.2.2.2 then
    (kv.2.2.2.getD []).map (fun p =>
      (kv.1 ++ "_" ++ pyFormatD p ++ "mb",
       { h5_var_name := kv.1,
         tool := some (.layer_at_pressure plev p),
         bkind := kv.2.2.1, dkind := kv.2.1,
         bid := some ("lvl" ++ pyFormatD p) }))
  else
    [(kv.1,
      { h5_var_name := kv.1, tool := none,
        bkind := kv.2.2.1, dkind := kv.2.1, bid := none })]

/-- `_var_manifest` (swath.py lines 339-363): the generator yields the
`varEntries` of every `VAR_TABLE` item in turn.  `sat` and `inst` are
accepted and ignored, as in the source ("FIXME: this ... needs to use the
guidebook").  The generator is consumed by `dict(...)`; entry names are
pairwise distinct, so the association list is that dict. -/
def _var_manifest (sat inst : String) (plev : List ℚ) :
    List (String × manifest_entry) :=
  VAR_TABLE.flatMap (varEntries plev)

/-- `_swath_shape` (swath.py lines 182-197): fold over the files reading
`h5['RelHum']` (KeyError when absent, unpack error when not 3-D), taking the
first non-zero layer and column counts and summing the row counts.  The
accumulator is `(layers, rows, cols)`. -/
def _swath_shape (h5s : List H5File) : Except PyErr (Nat × Nat × Nat) :=
  h5s.foldlM (fun acc h5 => do
    let rh ← getVar h5 "RelHum"
    match rh.shape with
    | [l, r, c] =>
      pure (if acc.1 = 0 then l else acc.1, acc.2.1 + r, if acc.2.2 = 0 then c else acc.2.2)
    | _ => .error .valueError) (0, 0, 0)

/-- The metadata dictionary `_swath_info` builds: the `zult` keys
(`swath_rows`, `swath_cols`, `swath_scans`, `_plev`) merged with the
`_filename_info` fields by `zult.update(fn_info)` (the key sets are
disjoint). -/
structure SwathInfo where
  swath_rows : Nat
  swath_cols : Nat
  swath_scans : Nat
  plev : List ℚ
  start_date : String
  start_time : String
  nav_set_uid : String
  sat : String
  instrument : String
  rows_per_scan : Nat
deriving DecidableEq, Repr

/-- `_swath_info` (swath.py lines 200-217): filename info of the first file,
then the shared shape, then `rps = fn_info['rows_per_scan']` (a `TypeError`
when the info is `None`), then `h5s[0]['Plevs'][:].squeeze()` -- the squeeze
of the 1-D pressure array is its data.  `swath_scans` is the Python 2 integer
division `rows / rps` (the guidebook values 1 and 3 are never zero). -/
def _swath_info (h5s : List H5File) : Except PyErr SwathInfo := do
  match h5s with
  | [] => .error .indexError
  | h5 :: _ =>
    let fn_info? ← _filename_info h5.filename
    let swsh ← _swath_shape h5s
    match fn_info? with
    | none => .error .typeError
    | some fn_info => do
      let plevVar ← getVar h5 "Plevs"
      pure { swath_rows := swsh.2.1, swath_cols := swsh.2.2,
             swath_scans := swsh.2.1 / fn_info.rows_per_scan, plev := plevVar.data,
             start_date := fn_info.start_date, start_time := fn_info.start_time,
             nav_set_uid := fn_info.nav_set_uid, sat := fn_info.sat,
             instrument := fn_info.instrument, rows_per_scan := fn_info.rows_per_scan }

/-- `np.concatenate(sections, axis=0)`: requires a non-empty list of arrays of
equal rank agreeing on all dimensions but the first; the result stacks the
data row-major and sums the leading dimension.  On the mask: `np.concatenate`
keeps a mask attribute on masked inputs but loses the per-element masks; the
per-element concatenation is kept here because `_swath_from_var` has already
substituted the fill value at every masked position, so the bytes any later
write produces are identical either way, and no claim observes the
difference. -/
def concatAxis0 (arrs : List NpArr) : Except PyErr NpArr :=
  match arrs with
  | [] => .error .valueError
  | a :: rest =>
    match a.shape with
    | [] => .error .valueError
    | n :: tailDims =>
      if rest.all (fun b => decide (b.shape.drop 1 = tailDims) && decide (b.shape ≠ [])) then
        .ok { shape := (n + (rest.map (fun b => b.shape.headD 0)).sum) :: tailDims,
              data := (a :: rest).flatMap (fun b => b.data),
              dtype := a.dtype,
              mask := if (a :: rest).any (fun b => b.mask.isSome) then
                  some ((a :: rest).flatMap
                    (fun b => b.mask.getD (List.replicate b.data.length false)))
                else none }
      else .error .valueError

/-- The closure `_gobble` of `swathbuckler` (swath.py lines 416-422): extract
a swath to an FBF file and return the path.  Per file, `_swath_from_var` on
`h5[h5_var_name]`; concatenate the sections along axis 0; apply `filter` to
get `swarthy`; then `arr_a_pirate = _explode(swarthy, EXPLODE_FACTOR) if
explode else swath` -- note the `else` arm uses the unfiltered `swath`, not
`swarthy`.  `_explode` is a scipy degree-1 bivariate spline, taken as the
parameter `explodeFn` (every claim here has `explode` false, so theorems hold
for every interpolation function).  The result also carries the write, if
any, for the file-write trace. -/
def _gobble (explodeFn : NpArr → Nat → NpArr) (h5s : List H5File)
    (name h5_var_name : String) (tool : Option Tool)
    (explode : Bool) (filt : Option (NpArr → NpArr)) :
    Except PyErr (Option String × List (String × WrittenFile)) :=
  match h5s.mapM (fun h5 => (getVar h5 h5_var_name).bind (fun v => _swath_from_var v tool)) with
  | .error e => .error e
  | .ok results =>
    match concatAxis0 (results.map (fun r => r.1)) with
    | .error e => .error e
    | .ok swath =>
      let swarthy := match filt with | none => swath | some f => f swath
      let arr_a_pirate := if explode then explodeFn swarthy EXPLODE_FACTOR else swath
      match _write_array_to_fbf name arr_a_pirate with
      | none => .ok (none, [])
      | some fnwf => .ok (some fnwf.1, [fnwf])

/-- One `band` dictionary of the `swathbuckler` manifest loop
(swath.py lines 436-447). -/
structure BandInfo where
  band : Option String
  data_kind : String
  remap_data_as : String
  kind : String
  fbf_img : Option String
  swath_rows : Nat
  swath_cols : Nat
  swath_scans : Nat
  rows_per_scan : Nat
  grids : String
deriving DecidableEq, Repr

/-- Build the `band` dictionary for one manifest entry. -/
def mkBand (nfo : SwathInfo) (guide : manifest_entry) (filename : Option String) : BandInfo :=
  { band := guide.bid, data_kind := guide.dkind, remap_data_as := guide.dkind,
    kind := guide.bkind, fbf_img := filename, swath_rows := nfo.swath_rows,
    swath_cols := nfo.swath_cols, swath_scans := nfo.swath_scans,
    rows_per_scan := nfo.rows_per_scan, grids := GRIDS_ANY }

/-- `bands[(guide.bkind, guide.bid)] = band` on an association list standing
in for the Python dict. -/
def dictInsert : List ((String × Option String) × BandInfo) → (String × Option String) →
    BandInfo → List ((String × Option String) × BandInfo)
  | [], k, b => [(k, b)]
  | (k0, b0) :: rest, k, b =>
    if k0 = k then (k0, b) :: rest else (k0, b0) :: dictInsert rest k b

/-- The manifest loop of `swathbuckler` (swath.py lines 433-449): for each
entry, `_gobble` the variable (an exception propagates: the loop body has no
try block) and store the band under `(bkind, bid)` -- including when the
write returned `None` and `fbf_img` is `None`.  Returns the write trace and
the bands. -/
def extractLoop (explodeFn : NpArr → Nat → NpArr) (h5s : List H5File) (nfo : SwathInfo) :
    List (String × manifest_entry) → List ((String × Option String) × BandInfo) →
    List (String × WrittenFile) × Except PyErr (List ((String × Option String) × BandInfo))
  | [], bands => ([], .ok bands)
  | (name, guide) :: rest, bands =>
    match _gobble explodeFn h5s name guide.h5_var_name guide.tool DEFAULT_EXPLODE_SAMPLING none with
    | .error e => ([], .error e)
    | .ok gob =>
      let res := extractLoop explodeFn h5s nfo rest
        (dictInsert bands (guide.bkind, guide.bid) (mkBand nfo guide gob.1))
      (gob.2 ++ res.1, res.2)

/-- The metadata `swathbuckler` returns: the `_swath_info` fields plus
`fbf_lat`, `fbf_lon` and `bands`. -/
structure SwathMeta where
  info : SwathInfo
  fbf_lat : Option String
  fbf_lon : Option String
  bands : List ((String × Option String) × BandInfo)
deriving DecidableEq, Repr

/-- The bad-file filter of `swathbuckler` (swath.py lines 395-406): drop
files `h5py.is_hdf5` rejects and files whose basename fails `RE_DRRTV`. -/
def goodFiles (files : List H5File) : List H5File :=
  files.filter (fun f => f.is_hdf5 && (parseDRRTV (pyBasename f.filename)).isSome)

/-- `swathbuckler` (swath.py lines 387-452): filter out unusable files and
return the empty dict (`none`) when nothing remains; read the swath info;
build the manifest; `_gobble` latitude, then longitude (the commented-out
`_make_longitude_monotonic` filter is not passed); then run the manifest
loop, where any exception propagates and aborts the group.  The first
component is the trace of files written, in write order; the `Except` is the
returned metadata or the escaping exception. -/
def swathbuckler (explodeFn : NpArr → Nat → NpArr) (files : List H5File) :
    List (String × WrittenFile) × Except PyErr (Option SwathMeta) :=
  let h5s := goodFiles files
  if h5s.isEmpty then ([], .ok none)
  else
    match _swath_info h5s with
    | .error e => ([], .error e)
    | .ok nfo0 =>
      let manifest := _var_manifest nfo0.sat nfo0.instrument nfo0.plev
      match _gobble explodeFn h5s "swath_latitude" "Latitude" none DEFAULT_EXPLODE_SAMPLING none with
      | .error e => ([], .error e)
      | .ok lat =>
        match _gobble explodeFn h5s "swath_longitude" "Longitude" none DEFAULT_EXPLODE_SAMPLING none with
        | .error e => (lat.2, .error e)
        | .ok lon =>
          let nfo := if DEFAULT_EXPLODE_SAMPLING then
              { nfo0 with
                rows_per_scan := nfo0.rows_per_scan * EXPLODE_FACTOR
                swath_rows := nfo0.swath_rows * EXPLODE_FACTOR
                swath_cols := nfo0.swath_cols * EXPLODE_FACTOR }
            else nfo0
          let loopRes := extractLoop explodeFn h5s nfo manifest []
          (lat.2 ++ lon.2 ++ loopRes.1,
           match loopRes.2 with
           | .error e => .error e
           | .ok bands =>
             .ok (some { info := nfo, fbf_lat := lat.1, fbf_lon := lon.1, bands := bands }))

/-- A write name produced by the unconditional latitude or longitude
extraction (as opposed to a manifest-entry write). -/
def isGeoName (s : String) : Bool :=
  strStarts s "swath_latitude." || strStarts s "swath_longitude."

/-- The output names of the manifest, independent of satellite, instrument
and pressure profile. -/
def manifestNames : List String :=
  ["CAPE", "CO2_Amount", "COT", "CTP", "CTT", "CldEmis", "Cmask",
   "Dewpnt_500mb", "Dewpnt_900mb", "H2OMMR_500mb", "H2OMMR_900mb",
   "Lifted_Index", "O3VMR_500mb", "O3VMR_900mb", "RelHum_500mb", "RelHum_900mb",
   "SurfPres", "TAir_500mb", "TAir_900mb", "TSurf", "totH2O", "totO3"]

theorem manifest_names_eq : ∀ (sat inst : String) (plev : List ℚ),
    (_var_manifest sat inst plev).map Prod.fst = manifestNames := by
  intro sat inst plev
  rfl

theorem strStarts_dot_chain : ∀ (n s1 s2 s3 : String),
    strStarts (n ++ "." ++ s1 ++ "." ++ s2 ++ "." ++ s3) (n ++ ".") = true := by
  intro n s1 s2 s3
  unfold strStarts
  rw [ List.isPrefixOf_iff_prefix]
  refine ⟨(s1 ++ "." ++ s2 ++ "." ++ s3).toList, ?_⟩
  show (n ++ ".").data ++ _ = _
  simp [String.data_append, List.append_assoc]

theorem write_fn_named : ∀ (name : String) (a : NpArr) (fn : String) (wf : WrittenFile),
    _write_array_to_fbf name a = some (fn, wf) →
    strStarts fn (name ++ ".") = true := by
  intro name a fn wf h
  unfold _write_array_to_fbf at h
  by_cases hl : a.shape.length ≠ 2
  · rw [if_pos hl] at h
    exact absurd h (by simp)
  · rw [if_neg hl] at h
    simp only [Option.some.injEq, Prod.mk.injEq] at h
    rw [← h.1]
    exact strStarts_dot_chain name _ _ _

theorem gobble_trace_named : ∀ (eFn : NpArr → Nat → NpArr) (h5s : List H5File)
    (name vn : String) (tool : Option Tool)
    (res : Option String × List (String × WrittenFile)),
    _gobble eFn h5s name vn tool DEFAULT_EXPLODE_SAMPLING none = .ok res →
    ∀ e ∈ res.2, strStarts e.1 (name ++ ".") = true := by
  intro eFn h5s name vn tool res h e he
  unfold _gobble at h
  cases hm : h5s.mapM (fun h5 => (getVar h5 vn).bind (fun v => _swath_from_var v tool)) with
  | error er => rw [hm] at h; exact absurd h (by simp)
  | ok results =>
    rw [hm] at h
    dsimp only at h
    cases hc : concatAxis0 (results.map (fun r => r.1)) with
    | error er => rw [hc] at h; exact absurd h (by simp)
    | ok swath =>
      rw [hc] at h
      dsimp only [DEFAULT_EXPLODE_SAMPLING] at h
      rw [if_neg Bool.false_ne_true] at h
      cases hw : _write_array_to_fbf name swath with
      | none =>
        rw [hw] at h
        simp only [Except.ok.injEq] at h
        rw [← h] at he
        simp at he
      | some fnwf =>
        rw [hw] at h
        simp only [Except.ok.injEq] at h
        rw [← h] at he
        simp only [List.mem_singleton] at he
        subst he
        exact write_fn_named name swath e.1 e.2 (by rw [hw])


theorem not_geo_head : ∀ (x : String) (c : Char) (rest : List Char),
    x.toList = c :: rest → c ≠ 's' → isGeoName x = false := by
  intro x c rest hx hc
  unfold isGeoName strStarts
  rw [Bool.or_eq_false_iff]
  have hlat : ("swath_latitude." : String).toList = 's' :: ("wath_latitude." : String).toList := rfl
  have hlon : ("swath_longitude." : String).toList = 's' :: ("wath_longitude." : String).toList := rfl
  constructor
  · rw [hlat, hx]
    simp [List.isPrefixOf, beq_eq_false_iff_ne, Ne.symm hc]
  · rw [hlon, hx]
    simp [List.isPrefixOf, beq_eq_false_iff_ne, Ne.symm hc]

theorem manifest_name_starts_not_geo : ∀ (n : String), n ∈ manifestNames →
    ∀ (x : String), strStarts x (n ++ ".") = true → isGeoName x = false := by
  intro n hn x hx
  unfold strStarts at hx
  rw [ List.isPrefixOf_iff_prefix] at hx
  obtain ⟨t, ht⟩ := hx
  fin_cases hn <;> exact not_geo_head x _ _ ht.symm (by decide)

theorem extractLoop_trace_names : ∀ (eFn : NpArr → Nat → NpArr) (h5s : List H5File)
    (nfo : SwathInfo) (entries : List (String × manifest_entry))
    (bands : List ((String × Option String) × BandInfo)),
    ∀ e ∈ (extractLoop eFn h5s nfo entries bands).1,
    ∃ ng ∈ entries, strStarts e.1 (ng.1 ++ ".") = true := by
  intro eFn h5s nfo entries
  induction entries with
  | nil => intro bands e he; simp [extractLoop] at he
  | cons ng rest ih =>
    intro bands e he
    obtain ⟨nm, guide⟩ := ng
    rw [extractLoop] at he
    cases hg : _gobble eFn h5s nm guide.h5_var_name guide.tool DEFAULT_EXPLODE_SAMPLING none with
    | error er => rw [hg] at he; simp at he
    | ok gob =>
      rw [hg] at he
      dsimp only at he
      rcases List.mem_append.1 he with h1 | h2
      · exact ⟨(nm, guide), List.mem_cons_self _ _,
          gobble_trace_named eFn h5s nm guide.h5_var_name guide.tool gob hg e h1⟩
      · obtain ⟨ng2, hng2, hpre⟩ := ih _ e h2
        exact ⟨ng2, List.mem_cons_of_mem _ hng2, hpre⟩

theorem extractLoop_abort : ∀ (eFn : NpArr → Nat → NpArr) (h5s : List H5File)
    (nfo : SwathInfo) (preE : List (String × manifest_entry)) (nm : String)
    (guide : manifest_entry) (restE : List (String × manifest_entry))
    (bands : List ((String × Option String) × BandInfo)) (e : PyErr),
    (∀ p ∈ preE, ∃ r, _gobble eFn h5s p.1 p.2.h5_var_name p.2.tool
        DEFAULT_EXPLODE_SAMPLING none = .ok r) →
    _gobble eFn h5s nm guide.h5_var_name guide.tool DEFAULT_EXPLODE_SAMPLING none = .error e →
    (extractLoop eFn h5s nfo (preE ++ (nm, guide) :: restE) bands).2 = .error e := by
  intro eFn h5s nfo preE
  induction preE with
  | nil =>
    intro nm guide restE bands e _ hbad
    rw [List.nil_append, extractLoop, hbad]
  | cons p preE ih =>
    intro nm guide restE bands e hpre hbad
    obtain ⟨pn, pg⟩ := p
    obtain ⟨r, hr⟩ := hpre (pn, pg) (List.mem_cons_self _ _)
    rw [List.cons_append, extractLoop, hr]
    dsimp only
    exact ih nm guide restE _ e
      (fun q hq => hpre q (List.mem_cons_of_mem _ hq)) hbad


theorem geo_of_lat : ∀ (x : String),
    strStarts x ("swath_latitude" ++ ".") = true → isGeoName x = true := by
  intro x h
  unfold isGeoName
  rw [show ("swath_latitude" ++ "." : String) = "swath_latitude." from rfl] at h
  rw [h, Bool.true_or]

theorem geo_of_lon : ∀ (x : String),
    strStarts x ("swath_longitude" ++ ".") = true → isGeoName x = true := by
  intro x h
  unfold isGeoName
  rw [show ("swath_longitude" ++ "." : String) = "swath_longitude." from rfl] at h
  rw [h, Bool.or_true]

/-- C3 (amended): in the write trace of `swathbuckler`, the unconditional
latitude and longitude writes form a prefix: every manifest-entry write comes
after them (first conjunct).  But a per-variable extraction failure is NOT
caught: when every entry before some manifest entry extracts fine and that
entry's extraction raises, the exception escapes the manifest loop and
`swathbuckler` raises instead of returning metadata -- the failing band is
not simply omitted and the rest of the group is not processed (second
conjunct). -/
theorem swathbuckler_geo_first_and_abort :
    ∀ (eFn : NpArr → Nat → NpArr) (files : List H5File),
    (∃ pre post,
      (swathbuckler eFn files).1 = pre ++ post ∧
      (∀ e ∈ pre, isGeoName e.1 = true) ∧
      (∀ e ∈ post, isGeoName e.1 = false)) ∧
    (∀ (nfo0 : SwathInfo) (preE : List (String × manifest_entry)) (nm : String)
       (guide : manifest_entry) (restE : List (String × manifest_entry)) (err : PyErr)
       (latR lonR : Option String × List (String × WrittenFile)),
      (goodFiles files).isEmpty = false →
      _swath_info (goodFiles files) = .ok nfo0 →
      _gobble eFn (goodFiles files) "swath_latitude" "Latitude" none
        DEFAULT_EXPLODE_SAMPLING none = .ok latR →
      _gobble eFn (goodFiles files) "swath_longitude" "Longitude" none
        DEFAULT_EXPLODE_SAMPLING none = .ok lonR →
      _var_manifest nfo0.sat nfo0.instrument nfo0.plev = preE ++ (nm, guide) :: restE →
      (∀ p ∈ preE, ∃ r, _gobble eFn (goodFiles files) p.1 p.2.h5_var_name p.2.tool
          DEFAULT_EXPLODE_SAMPLING none = .ok r) →
      _gobble eFn (goodFiles files) nm guide.h5_var_name guide.tool
        DEFAULT_EXPLODE_SAMPLING none = .error err →
      (swathbuckler eFn files).2 = .error err) := by
  intro eFn files
  constructor
  · unfold swathbuckler
    by_cases h0 : (goodFiles files).isEmpty = true
    · rw [if_pos h0]
      exact ⟨[], [], rfl, by simp, by simp⟩
    · rw [if_neg h0]
      cases hsi : _swath_info (goodFiles files) with
      | error e1 => exact ⟨[], [], rfl, by simp, by simp⟩
      | ok nfo0 =>
        dsimp only
        cases hlat : _gobble eFn (goodFiles files) "swath_latitude" "Latitude" none
            DEFAULT_EXPLODE_SAMPLING none with
        | error e1 => exact ⟨[], [], rfl, by simp, by simp⟩
        | ok lat =>
          dsimp only
          cases hlon : _gobble eFn (goodFiles files) "swath_longitude" "Longitude" none
              DEFAULT_EXPLODE_SAMPLING none with
          | error e1 =>
            refine ⟨lat.2, [], by simp, ?_, by simp⟩
            intro e he
            exact geo_of_lat e.1
              (gobble_trace_named eFn (goodFiles files) "swath_latitude" "Latitude" none
                lat hlat e he)
          | ok lon =>
            dsimp only [DEFAULT_EXPLODE_SAMPLING]
            refine ⟨lat.2 ++ lon.2, _, rfl, ?_, ?_⟩
            · intro e he
              rcases List.mem_append.1 he with h1 | h2
              · exact geo_of_lat e.1
                  (gobble_trace_named eFn (goodFiles files) "swath_latitude" "Latitude" none
                    lat hlat e h1)
              · exact geo_of_lon e.1
                  (gobble_trace_named eFn (goodFiles files) "swath_longitude" "Longitude" none
                    lon hlon e h2)
            · intro e he
              obtain ⟨ng, hng, hpre⟩ := extractLoop_trace_names eFn (goodFiles files) _ _ _ e he
              refine manifest_name_starts_not_geo ng.1 ?_ e.1 hpre
              rw [← manifest_names_eq nfo0.sat nfo0.instrument nfo0.plev]
              exact List.mem_map_of_mem Prod.fst hng
  · intro nfo0 preE nm guide restE err latR lonR h0 hsi hlat hlon hman hpre hbad
    unfold swathbuckler
    rw [if_neg (by rw [h0]; exact Bool.false_ne_true)]
    rw [hsi]
    dsimp only
    rw [hlat]
    dsimp only
    rw [hlon]
    dsimp only [DEFAULT_EXPLODE_SAMPLING]
    rw [hman]
    rw [extractLoop_abort eFn (goodFiles files) _ preE nm guide restE [] err hpre hbad]


/-- A well-formed single-file IASI group carrying only the geolocation and
shape variables: latitude, longitude, `RelHum` and `Plevs` are present and
healthy, every other manifest variable is missing. -/
def sampleIASIFile : H5File :=
  { filename := "IASI_d20130310_t152624_M02.atm_prof_rtv.h5"
    is_hdf5 := true
    vars := [
      ("Latitude", ⟨[2, 3], [10, 11, 12, 13, 14, 15], .float32, none⟩),
      ("Longitude", ⟨[2, 3], [20, 21, 22, 23, 24, 25], .float32, none⟩),
      ("RelHum", ⟨[2, 2, 3], [1, 2, 3, 4, 5, 6, 7, 8, 9, 10, 11, 12], .float32, none⟩),
      ("Plevs", ⟨[2], [500, 900], .float32, none⟩)] }

/-- C3 counterexample: on `sampleIASIFile`, latitude and longitude are
extracted and written fine, and then the first manifest entry whose variable
is missing raises `KeyError`; `swathbuckler` returns no metadata at all
(`toOption = none`), contradicting the claim that the failed band is omitted
while the remaining entries are still processed. -/
theorem swathbuckler_aborts_on_missing_variable :
    ((swathbuckler (fun a _ => a) [sampleIASIFile]).1.map Prod.fst) =
      ["swath_latitude.real4.3.2", "swath_longitude.real4.3.2"] ∧
    (swathbuckler (fun a _ => a) [sampleIASIFile]).2.toOption = none := by
  constructor <;> rfl

/-- C3 witness: the abort conjunct applied to `sampleIASIFile`, whose first
manifest entry `CAPE` raises `KeyError('CAPE')`. -/
theorem swathbuckler_geo_first_and_abort_witness :
    (swathbuckler (fun a _ => a) [sampleIASIFile]).2 = .error (.keyError "CAPE") :=
  (swathbuckler_geo_first_and_abort (fun a _ => a) [sampleIASIFile]).2
    { swath_rows := 2, swath_cols := 3, swath_scans := 2, plev := [500, 900],
      start_date := "20130310", start_time := "152624", nav_set_uid := "iasi_nav",
      sat := "metopa", instrument := "iasi", rows_per_scan := 1 }
    [] "CAPE" ⟨"CAPE", none, "cape", "cape", none⟩
    ((_var_manifest "metopa" "iasi" [500, 900]).tail) (.keyError "CAPE")
    (some "swath_latitude.real4.3.2",
      [("swath_latitude.real4.3.2",
        ⟨.float32, 2, 3, [10, 11, 12, 13, 14, 15]⟩)])
    (some "swath_longitude.real4.3.2",
      [("swath_longitude.real4.3.2",
        ⟨.float32, 2, 3, [20, 21, 22, 23, 24, 25]⟩)])
    rfl rfl rfl rfl rfl
    (fun p hp => absurd hp (List.not_mem_nil p))
    rfl

/-- `ret.setdefault(k, []).append(pn)` pattern of `sort_files_by_nav_uid`,
on an association list standing in for the Python dict. -/
def addToBucket : List (String × List String) → String → String → List (String × List String)
  | [], k, pn => [(k, [pn])]
  | (k0, vs) :: rest, k, pn =>
    if k0 = k then (k0, vs ++ [pn]) :: rest else (k0, vs) :: addToBucket rest k pn

def entriesForVar (m : List (String × manifest_entry)) (v : String) :
    List (String × manifest_entry) :=
  m.filter (fun e => decide (e.2.h5_var_name = v))

theorem varEntries_name : ∀ (plev : List ℚ) kv e, e ∈ varEntries plev kv →
    e.2.h5_var_name = kv.1 := by
  intro plev kv e he
  unfold varEntries at he
  split at he
  · rcases List.mem_map.1 he with ⟨p, _, rfl⟩
    rfl
  · rcases List.mem_singleton.1 he with rfl
    rfl

theorem entriesForVar_flatMap :
    ∀ (T : List (String × (String × String × Option (List ℚ)))) (plev : List ℚ) (v : String),
    entriesForVar (T.flatMap (varEntries plev)) v =
      (T.filter (fun kv => decide (kv.1 = v))).flatMap (varEntries plev) := by
  intro T plev v
  induction T with
  | nil => rfl
  | cons kv rest ih =>
    rw [List.flatMap_cons, List.filter_cons]
    unfold entriesForVar at *
    rw [List.filter_append, ih]
    by_cases hkv : kv.1 = v
    · rw [if_pos (by simpa using hkv), List.flatMap_cons]
      congr 1
      exact List.filter_eq_self.2 (fun e he => by
        simpa using (varEntries_name plev kv e he).trans hkv)
    · rw [if_neg (by simpa using hkv)]
      rw [List.filter_eq_nil_iff.2 (fun e he => by
        simp only [decide_eq_true_eq]
        rw [varEntries_name plev kv e he]
        exact hkv)]
      rfl

theorem filter_of_find_none :
    ∀ (T : List (String × (String × String × Option (List ℚ)))) (v : String),
    T.find? (fun kv => decide (kv.1 = v)) = none →
    T.filter (fun kv => decide (kv.1 = v)) = [] := by
  intro T v h
  rw [List.find?_eq_none] at h
  exact List.filter_eq_nil_iff.2 (fun e he => by simpa using h e he)

theorem filter_of_find_some :
    ∀ (T : List (String × (String × String × Option (List ℚ)))) (v : String) info,
    (T.map Prod.fst).Nodup →
    T.find? (fun kv => decide (kv.1 = v)) = some info →
    T.filter (fun kv => decide (kv.1 = v)) = [info] := by
  intro T
  induction T with
  | nil => intro v info _ h; simp at h
  | cons kv rest ih =>
    intro v info hnd h
    rw [List.map_cons, List.nodup_cons] at hnd
    by_cases hkv : kv.1 = v
    · rw [List.find?_cons_of_pos _ (by simpa using hkv)] at h
      have hkvinfo : kv = info := by injection h
      subst hkvinfo
      rw [List.filter_cons, if_pos (by simpa using hkv)]
      have : rest.filter (fun kv2 => decide (kv2.1 = v)) = [] := by
        refine List.filter_eq_nil_iff.2 (fun e he => ?_)
        simp only [decide_eq_true_eq]
        intro hev
        refine hnd.1 ?_
        rw [hkv, ← hev]
        exact List.mem_map_of_mem Prod.fst he
      simp [this]
    · rw [List.find?_cons_of_neg _ (by simpa using hkv)] at h
      rw [List.filter_cons, if_neg (by simpa using hkv)]
      exact ih v info hnd.2 h


/-- C7: for a variable found in `VAR_TABLE`, the manifest holds exactly its
`varEntries`: one entry per declared pressure level, named
`{variable}_{pressure}mb` with bid `lvl{pressure}`, when the pressure list is
truthy, and exactly one passthrough entry under the plain variable name
otherwise; a variable absent from the lookup contributes zero entries, and no
error arises. -/
theorem var_manifest_entries :
    ∀ (sat inst : String) (plev : List ℚ) (v : String),
    (VAR_TABLE.find? (fun kv => decide (kv.1 = v)) = none →
      entriesForVar (_var_manifest sat inst plev) v = []) ∧
    (∀ info, VAR_TABLE.find? (fun kv => decide (kv.1 = v)) = some info →
      entriesForVar (_var_manifest sat inst plev) v = varEntries plev info ∧
      (pyTruthy info.2.2.2 = true →
        entriesForVar (_var_manifest sat inst plev) v =
          (info.2.2.2.getD []).map (fun p =>
            (info.1 ++ "_" ++ pyFormatD p ++ "mb",
             { h5_var_name := info.1, tool := some (.layer_at_pressure plev p),
               bkind := info.2.2.1, dkind := info.2.1,
               bid := some ("lvl" ++ pyFormatD p) }))) ∧
      (pyTruthy info.2.2.2 = false →
        entriesForVar (_var_manifest sat inst plev) v =
          [(info.1, { h5_var_name := info.1, tool := none, bkind := info.2.2.1,
                      dkind := info.2.1, bid := none })])) := by
  intro sat inst plev v
  constructor
  · intro h
    unfold _var_manifest
    rw [entriesForVar_flatMap, filter_of_find_none _ _ h]
    rfl
  · intro info h
    have hm : entriesForVar (_var_manifest sat inst plev) v = varEntries plev info := by
      unfold _var_manifest
      rw [entriesForVar_flatMap, filter_of_find_some _ _ _ (by decide) h]
      simp
    refine ⟨hm, ?_, ?_⟩
    · intro ht
      rw [hm]
      unfold varEntries
      rw [if_pos ht]
    · intro hf
      rw [hm]
      unfold varEntries
      rw [if_neg (by simp [hf])]

/-- C7 witness: `Dewpnt` (two declared pressures) yields exactly the entries
`Dewpnt_500mb` and `Dewpnt_900mb`, and an unknown variable yields none. -/
theorem var_manifest_entries_witness :
    entriesForVar (_var_manifest "metopa" "iasi" [500, 900]) "Dewpnt" =
      [("Dewpnt_500mb",
        { h5_var_name := "Dewpnt", tool := some (.layer_at_pressure [500, 900] 500),
          bkind := "dewpt", dkind := "temperature", bid := some "lvl500" }),
       ("Dewpnt_900mb",
        { h5_var_name := "Dewpnt", tool := some (.layer_at_pressure [500, 900] 900),
          bkind := "dewpt", dkind := "temperature", bid := some "lvl900" })] ∧
    entriesForVar (_var_manifest "metopa" "iasi" [500, 900]) "Bogus" = [] := by
  constructor
  · exact (((var_manifest_entries "metopa" "iasi" [500, 900] "Dewpnt").2
      ("Dewpnt", ("temperature", "dewpt", some DEFAULT_LAYER_PRESSURES)) rfl).2.1 rfl).trans (by rfl)
  · exact (var_manifest_entries "metopa" "iasi" [500, 900] "Bogus").1 rfl

theorem argminAux_spec : ∀ (rest : List ℚ) (p best : ℚ) (bestIdx i : Nat),
    ((argminAux p best bestIdx i rest).2 ≤ best ∧
      ∀ k, k < rest.length → (argminAux p best bestIdx i rest).2 ≤ |rest.getD k 0 - p|) ∧
    (argminAux p best bestIdx i rest = (bestIdx, best) ∨
      ∃ k, k < rest.length ∧ argminAux p best bestIdx i rest = (i + k, |rest.getD k 0 - p|)) := by
  intro rest
  induction rest with
  | nil =>
    intro p best bestIdx i
    refine ⟨⟨le_refl _, ?_⟩, Or.inl rfl⟩
    intro k hk
    simp at hk
  | cons x rest ih =>
    intro p best bestIdx i
    by_cases hlt : |x - p| < best
    · have h := ih p |x - p| i (i + 1)
      rw [argminAux, if_pos hlt]
      refine ⟨⟨le_trans h.1.1 (le_of_lt hlt), ?_⟩, ?_⟩
      · intro k hk
        match k with
        | 0 => simpa using h.1.1
        | k + 1 =>
          simp only [List.getD_cons_succ]
          exact h.1.2 k (by simpa using hk)
      · rcases h.2 with heq | ⟨k, hk, heq⟩
        · exact Or.inr ⟨0, by simp, by simpa using heq⟩
        · refine Or.inr ⟨k + 1, by simpa using hk, ?_⟩
          simp only [List.getD_cons_succ]
          rw [heq]
          congr 1
          omega
    · have h := ih p best bestIdx (i + 1)
      rw [argminAux, if_neg hlt]
      refine ⟨⟨h.1.1, ?_⟩, ?_⟩
      · intro k hk
        match k with
        | 0 => simpa using le_trans h.1.1 (not_lt.mp hlt)
        | k + 1 =>
          simp only [List.getD_cons_succ]
          exact h.1.2 k (by simpa using hk)
      · rcases h.2 with heq | ⟨k, hk, heq⟩
        · exact Or.inl heq
        · refine Or.inr ⟨k + 1, by simpa using hk, ?_⟩
          simp only [List.getD_cons_succ]
          rw [heq]
          congr 1
          omega

/-- C6: the index selection `np.abs(plev - p).argmin()` inside
`_layer_at_pressure` (the layer-selection tool carried by manifest entries)
returns an in-range index whose absolute distance to the requested level is
minimal over the whole profile; in particular, for profile
`[1000, 850, 500, 200]` and requested level 900 it returns index 1. -/
theorem layer_selection_nearest :
    (∀ (plev : List ℚ) (p : ℚ) (dex : Nat), argminAbs plev p = some dex →
      dex < plev.length ∧
      ∀ j, j < plev.length → |plev.getD dex 0 - p| ≤ |plev.getD j 0 - p|) ∧
    argminAbs [1000, 850, 500, 200] 900 = some 1 := by
  constructor
  · intro plev p dex h
    match plev, h with
    | x :: rest, h =>
      simp only [argminAbs, Option.some.injEq] at h
      have spec := argminAux_spec rest p |x - p| 0 1
      have hval : (argminAux p |x - p| 0 1 rest).2 =
          |(x :: rest).getD (argminAux p |x - p| 0 1 rest).1 0 - p| := by
        rcases spec.2 with heq | ⟨k, hk, heq⟩
        · rw [heq]
          simp
        · rw [heq, Nat.add_comm 1 k]
          simp [List.getD_cons_succ]
      have hlen : (argminAux p |x - p| 0 1 rest).1 < (x :: rest).length := by
        rcases spec.2 with heq | ⟨k, hk, heq⟩
        · rw [heq]; simp
        · rw [heq]
          simp only [List.length_cons]
          omega
      subst h
      refine ⟨hlen, ?_⟩
      intro j hj
      rw [← hval]
      match j with
      | 0 => simpa using spec.1.1
      | j + 1 =>
        simp only [List.getD_cons_succ]
        exact spec.1.2 j (by simpa using hj)
  · rw [argminAbs]
    rw [argminAux]
    rw [if_pos (by norm_num)]
    rw [argminAux]
    rw [if_neg (by norm_num)]
    rw [argminAux]
    rw [if_neg (by norm_num)]
    rw [argminAux]

/-- C6 witness: the selected index 1 of the spec example is in range and its
distance to 900 is no larger than that of index 0. -/
theorem layer_selection_nearest_witness :
    (1 < ([1000, 850, 500, 200] : List ℚ).length) ∧
    |([1000, 850, 500, 200] : List ℚ).getD 1 0 - 900| ≤
      |([1000, 850, 500, 200] : List ℚ).getD 0 0 - 900| :=
  ⟨(layer_selection_nearest.1 [1000, 850, 500, 200] 900 1 layer_selection_nearest.2).1,
   (layer_selection_nearest.1 [1000, 850, 500, 200] 900 1 layer_selection_nearest.2).2 0 (by simp)⟩

namespace Frontend

/-- `Frontend.sort_files_by_nav_uid` (swath.py lines 491-502): buckets
pathnames by the `nav_set_uid` of their filename info, skipping files whose
info is `None`; an exception from `_filename_info` propagates. -/
def sort_files_by_nav_uid (filepaths : List String) :
    Except PyErr (List (String × List String)) :=
  filepaths.foldlM (fun ret pn => do
    match ← _filename_info pn with
    | none => pure ret
    | some file_info => pure (addToBucket ret file_info.nav_set_uid pn)) []

end Frontend

/-- C9: with upsampling (`explode`) disabled, a supplied filter has no effect
on `_gobble`: the `else` arm of `arr_a_pirate` uses the unfiltered `swath`,
so the result equals the run with no filter (first conjunct) and is exactly
the flat-binary write of the unfiltered concatenated swath (second
conjunct). -/
theorem gobble_filter_ignored_without_explode :
    ∀ (explodeFn : NpArr → Nat → NpArr) (h5s : List H5File) (name h5_var_name : String)
      (tool : Option Tool) (f : NpArr → NpArr),
    (_gobble explodeFn h5s name h5_var_name tool false (some f) =
      _gobble explodeFn h5s name h5_var_name tool false none) ∧
    (∀ results swath,
      h5s.mapM (fun h5 => (getVar h5 h5_var_name).bind (fun v => _swath_from_var v tool)) =
        .ok results →
      concatAxis0 (results.map (fun r => r.1)) = .ok swath →
      _gobble explodeFn h5s name h5_var_name tool false (some f) =
        (match _write_array_to_fbf name swath with
         | none => .ok (none, [])
         | some fnwf => .ok (some fnwf.1, [fnwf]))) := by
  intro explodeFn h5s name h5_var_name tool f
  constructor
  · rfl
  · intro results swath h1 h2
    unfold _gobble
    rw [h1]
    dsimp only
    rw [h2]
    rfl

/-- C9 witness: a one-file swath with a data-zeroing filter supplied writes
the same output as with no filter when `explode` is off. -/
theorem gobble_filter_ignored_witness :
    _gobble (fun a _ => a) [⟨"f.h5", true, [("V", ⟨[1, 2], [5, 6], .float32, some (-999)⟩)]⟩]
        "out" "V" none false
        (some (fun a => { a with data := a.data.map (fun _ => (0 : ℚ)) })) =
      _gobble (fun a _ => a) [⟨"f.h5", true, [("V", ⟨[1, 2], [5, 6], .float32, some (-999)⟩)]⟩]
        "out" "V" none false none :=
  (gobble_filter_ignored_without_explode (fun a _ => a)
    [⟨"f.h5", true, [("V", ⟨[1, 2], [5, 6], .float32, some (-999)⟩)]⟩]
    "out" "V" none (fun a => { a with data := a.data.map (fun _ => (0 : ℚ)) })).1

/-- C10: a pathname whose basename matches `RE_DRRTV` but whose
`(sat, inst)` pair misses `SAT_INST_TABLE` under both the parsed key and the
satellite-absent default key makes `_filename_info` raise `TypeError` (the
tuple unpacking of the `None` lookup result) instead of returning the `None`
no-match result, and `Frontend.sort_files_by_nav_uid`, which calls it without
a handler, propagates the exception. -/
theorem filename_info_unknown_instrument_raises :
    ∀ (pn inst date time : String) (sat : Option String),
    parseDRRTV (pyBasename pn) = some (inst, date, time, sat) →
    tableGet (sat, inst) = none →
    tableGet (none, inst) = none →
    _filename_info pn = .error .typeError ∧
    Frontend.sort_files_by_nav_uid [pn] = .error .typeError := by
  intro pn inst date time sat hp h1 h2
  have hfi : _filename_info pn = .error .typeError := by
    unfold _filename_info
    rw [hp]
    dsimp only
    rw [h1, h2]
    rfl
  refine ⟨hfi, ?_⟩
  unfold Frontend.sort_files_by_nav_uid
  simp only [List.foldlM_cons, List.foldlM_nil]
  rw [hfi]
  rfl

/-- C10 witness: `FOO_d20130310_t152624.h5` matches the grammar with unknown
instrument `FOO`, and classification raises. -/
theorem filename_info_unknown_instrument_witness :
    _filename_info "FOO_d20130310_t152624.h5" = .error .typeError ∧
    Frontend.sort_files_by_nav_uid ["FOO_d20130310_t152624.h5"] = .error .typeError :=
  filename_info_unknown_instrument_raises "FOO_d20130310_t152624.h5"
    "FOO" "20130310" "152624" none rfl rfl rfl

end drrtv
